import Mathlib

/-!
Verification of the migration-mvp pipeline: a shallow embedding of the
Python sources (mvp_migrator.py, orchestrator.py, claude_fixer.py,
openrewrite_runner.py, migration_patterns/config_properties.py,
migration_patterns/hibernate_six.py, test_pattern_migrations.py).

External effects (file reads, the Anthropic API, subprocesses, the
tree-sitter Java parser) are modelled as oracle inputs carried in
explicit environment structures; every pure computation (string
matching, counting, result aggregation, success flags) is translated
directly from the source.
-/

namespace Mig

/-! ## String utilities with Python semantics -/

/-- Python whitespace class for str.strip and the regex classes \s and \S
(ASCII subset: space, tab, newline, carriage return, vertical tab, form feed). -/
def isPySpace (c : Char) : Bool :=
  c = ' ' || c = '\t' || c = '\n' || c = '\r' || c = Char.ofNat 11 || c = Char.ofNat 12

/-- The pattern list is a leading segment of the subject list
(Python str.startswith, and the anchored step of substring search). -/
def segAt : List Char → List Char → Bool
  | [], _ => true
  | _ :: _, [] => false
  | a :: as, b :: bs => a == b && segAt as bs

/-- The pattern occurs as a contiguous segment of the subject
(Python substring membership, the `in` operator). -/
def hasSeg (p : List Char) : List Char → Bool
  | [] => segAt p []
  | b :: bs => segAt p (b :: bs) || hasSeg p bs

/-- Python `needle in hay` on strings. -/
def strIn (needle hay : String) : Bool :=
  hasSeg needle.toList hay.toList

/-- Python `s.startswith(pre)`. -/
def pyStartsWith (s pre : String) : Bool :=
  segAt pre.toList s.toList

/-- Python `s.strip()` (whitespace on both ends removed). -/
def pyStrip (s : String) : String :=
  String.mk (((s.toList.dropWhile isPySpace).reverse.dropWhile isPySpace).reverse)

/-- Python `s.split("\n")` on the character list: splits at every newline,
keeping empty segments (so the empty input yields one empty segment). -/
def splitNlList : List Char → List (List Char)
  | [] => [[]]
  | c :: cs =>
    if c = '\n' then [] :: splitNlList cs
    else
      match splitNlList cs with
      | [] => [[c]]
      | l :: ls => (c :: l) :: ls

/-- Python `s.split("\n")`. -/
def splitNl (s : String) : List String :=
  (splitNlList s.toList).map String.mk

/-- Python `"\n".join(lines)`. -/
def joinNl (ls : List String) : String :=
  String.intercalate "\n" ls

/-! ## openrewrite_runner.py: _parse_change_count

The two line-shape regexes are embedded directly.  Each regex has the
form LITERAL (\S+) LITERAL; a match attempt at a fixed position is
deterministic (see the comments on each matcher), and `countMatches`
reproduces re.findall: leftmost, non-overlapping scanning. -/

/-- Match attempt at the current position for the run-goal regex
`Changes have been made to (\S+) by:`.  After the literal, the greedy
`\S+` followed by the space that starts ` by:` forces the capture to be
exactly the maximal nonempty run of non-whitespace characters.
Returns the remainder after the whole match. -/
def matchApplied (l : List Char) : Option (List Char) :=
  let pre := "Changes have been made to ".toList
  if segAt pre l then
    let rest := l.drop pre.length
    let run := rest.takeWhile (fun c => !(isPySpace c))
    if decide (1 ≤ run.length) && segAt " by:".toList (rest.drop run.length) then
      some (rest.drop (run.length + 4))
    else none
  else none

/-- Index of the last colon in a character list (used for greedy
backtracking of `\S+` before a literal colon). -/
def lastIdxColon : List Char → Option Nat
  | [] => none
  | c :: cs =>
    match lastIdxColon cs with
    | some j => some (j + 1)
    | none => if c = ':' then some 0 else none

/-- Match attempt at the current position for the dryRun-goal regex
`These recipes would make changes to (\S+):`.  The trailing colon is a
non-whitespace character, so greedy `\S+` with backtracking ends the
capture just before the LAST colon inside the maximal non-whitespace
run (and the capture must be nonempty, hence that colon index must be
at least 1).  Returns the remainder after the whole match. -/
def matchPlanned (l : List Char) : Option (List Char) :=
  let pre := "These recipes would make changes to ".toList
  if segAt pre l then
    let rest := l.drop pre.length
    let run := rest.takeWhile (fun c => !(isPySpace c))
    match lastIdxColon run with
    | some k => if 1 ≤ k then some (rest.drop (k + 1)) else none
    | none => none
  else none

/-- re.findall counting: scan left to right, on a match continue after
its end (non-overlapping), otherwise advance one character.  Both
matchers consume at least one character on success, and each step
shortens the subject by at least one character while consuming exactly
one unit of fuel, so fuel equal to the initial length is always enough
and the fuelled function agrees with the unfuelled recursion. -/
def countMatchesAux (m : List Char → Option (List Char)) : Nat → List Char → Nat
  | 0, _ => 0
  | _ + 1, [] => 0
  | fuel + 1, c :: cs =>
    match m (c :: cs) with
    | some rest => 1 + countMatchesAux m fuel rest
    | none => countMatchesAux m fuel cs

/-- Number of re.findall matches of matcher `m` in the subject. -/
def countMatches (m : List Char → Option (List Char)) (l : List Char) : Nat :=
  countMatchesAux m l.length l

/-- Match attempt at the current position for the fallback regex
`Made (\d+) change`: greedy `\d+` is the maximal digit run (no
backtracking is possible because a digit cannot start ` change`).
Returns the captured number. -/
def madeAt (l : List Char) : Option Nat :=
  if segAt "Made ".toList l then
    let rest := l.drop 5
    let digits := rest.takeWhile Char.isDigit
    if decide (1 ≤ digits.length) && segAt " change".toList (rest.drop digits.length) then
      some (digits.foldl (fun n c => n * 10 + (c.toNat - 48)) 0)
    else none
  else none

/-- re.search: leftmost match attempt of matcher `m`. -/
def scanFor {α : Type} (m : List Char → Option α) : List Char → Option α
  | [] => m []
  | c :: cs =>
    match m (c :: cs) with
    | some r => some r
    | none => scanFor m cs

/-- openrewrite_runner._parse_change_count: count the applied-format and
planned-format lines; if the total is positive return it, otherwise fall
back to the first `Made N change` summary, defaulting to zero. -/
def parse_change_count (output : String) : Nat :=
  let l := output.toList
  let applied := countMatches matchApplied l
  let planned := countMatches matchPlanned l
  let total := applied + planned
  if 0 < total then total
  else
    match scanFor madeAt l with
    | some n => n
    | none => 0

/-! ## openrewrite_runner.py: run_openrewrite

The Maven subprocess is a black-box collaborator; its behaviour is an
oracle in the environment.  The second component of the result records
whether the subprocess was actually invoked. -/

inductive SubprocFailure
  | timeout
  | fileNotFound

structure SubprocResult where
  returncode : Int
  stdout : String
  stderr : String

structure OwEnv where
  projectPath : String
  pomExists : Bool
  subproc : Except SubprocFailure SubprocResult

structure OwOutcome where
  ok : Bool
  output : String
  changes : Nat

/-- openrewrite_runner.run_openrewrite.  The dry_run flag only changes
the Maven goal inside the command string, which the model does not need
to track.  The Bool paired with the outcome is true exactly when the
subprocess was invoked. -/
def run_openrewrite (env : OwEnv) : OwOutcome × Bool :=
  if env.pomExists then
    match env.subproc with
    | .error .timeout =>
      ({ ok := false, output := "OpenRewrite timed out after 600 seconds", changes := 0 }, true)
    | .error .fileNotFound =>
      ({ ok := false, output := "Maven (mvn) not found on PATH", changes := 0 }, true)
    | .ok r =>
      let combined := r.stdout ++ "\n" ++ r.stderr
      let ok := r.returncode == 0
      ({ ok := ok, output := combined,
         changes := if ok then parse_change_count combined else 0 }, true)
  else
    ({ ok := false, output := "No pom.xml found at " ++ env.projectPath, changes := 0 }, false)

/-! ## claude_fixer.py: response extraction and the Java well-formedness gate

The tree-sitter parser is a black-box AST service; its error report is
the oracle `parseHasError`.  The fenced-block extraction regexes from
_extract_code_from_response are embedded directly. -/

/-- Lazy capture of `(.*?)` up to a closing triple backtick (DOTALL, so
a newline is an ordinary character); none when no closing fence exists. -/
def takeUntilFence : List Char → Option (List Char)
  | [] => none
  | c :: cs =>
    if segAt "```".toList (c :: cs) then some []
    else (takeUntilFence cs).map (fun t => c :: t)

/-- Index of the last newline in a character list (greedy backtracking
point of `\s*` before a literal newline). -/
def lastIdxNl : List Char → Option Nat
  | [] => none
  | c :: cs =>
    match lastIdxNl cs with
    | some j => some (j + 1)
    | none => if c = '\n' then some 0 else none

/-- Match attempt at the current position for the labelled-fence regex
used by claude_fixer: a triple backtick followed by `java`, then `\s*`
and a newline (greedy, hence the LAST newline of the maximal whitespace
run), then the lazy capture up to the closing fence. -/
def javaFenceAt (l : List Char) : Option (List Char) :=
  if segAt "```java".toList l then
    let rest := l.drop 7
    let ws := rest.takeWhile isPySpace
    match lastIdxNl ws with
    | some j => takeUntilFence (rest.drop (j + 1))
    | none => none
  else none

/-- Match attempt for the generic-fence regex: a triple backtick, then
`\s*` and a newline, then the lazy capture up to the closing fence. -/
def anyFenceAt (l : List Char) : Option (List Char) :=
  if segAt "```".toList l then
    let rest := l.drop 3
    let ws := rest.takeWhile isPySpace
    match lastIdxNl ws with
    | some j => takeUntilFence (rest.drop (j + 1))
    | none => none
  else none

/-- claude_fixer._extract_code_from_response: prefer a java-labelled
fenced block, fall back to a generic fenced block, fall back to the raw
response; the selected text is stripped. -/
def extract_code_from_response (text : String) : String :=
  match scanFor javaFenceAt text.toList with
  | some cap => pyStrip (String.mk cap)
  | none =>
    match scanFor anyFenceAt text.toList with
    | some cap => pyStrip (String.mk cap)
    | none => pyStrip text

/-- claude_fixer._validate_java_syntax: parse the code with the (black
box) tree-sitter Java parser and demand no parser-reported error nodes. -/
def validateJavaCode (parseHasError : String → Bool) (code : String) : Bool :=
  !(parseHasError code)

/-- Response of one Claude call: text of the first content block plus
the usage counters. -/
structure ApiOutcome where
  text : String
  tokensIn : Nat
  tokensOut : Nat

/-- Environment of one rewrite-handler invocation: the file path, the
outcome of reading the file, the outcome of the API call, and the
black-box parser error report. -/
structure RewriteEnv where
  path : String
  readRes : Except String String
  apiRes : Except String ApiOutcome
  parseHasError : String → Bool

/-- claude_fixer.migrate_security_config: read the file, call Claude
with the security prompt, extract the code from the response and gate
it on the Java well-formedness check.  The prompt construction only
feeds the API oracle and is not tracked. -/
def migrate_security_config (env : RewriteEnv) : Bool × String × Nat :=
  match env.readRes with
  | .error e => (false, "Could not read " ++ env.path ++ ": " ++ e, 0)
  | .ok _ =>
    match env.apiRes with
    | .error e => (false, "Claude API error: " ++ e, 0)
    | .ok resp =>
      let tokensTotal := resp.tokensIn + resp.tokensOut
      let migratedCode := extract_code_from_response resp.text
      if validateJavaCode env.parseHasError migratedCode then
        (true, migratedCode, tokensTotal)
      else
        (false, "Claude-generated code has Java syntax errors", tokensTotal)

/-- migration_patterns/hibernate_six.migrate_hibernate_file: same
structure as the security handler (only the prompt template differs,
which the model does not track). -/
def migrate_hibernate_file (env : RewriteEnv) : Bool × String × Nat :=
  match env.readRes with
  | .error e => (false, "Could not read " ++ env.path ++ ": " ++ e, 0)
  | .ok _ =>
    match env.apiRes with
    | .error e => (false, "Claude API error: " ++ e, 0)
    | .ok resp =>
      let tokensTotal := resp.tokensIn + resp.tokensOut
      let migratedCode := extract_code_from_response resp.text
      if validateJavaCode env.parseHasError migratedCode then
        (true, migratedCode, tokensTotal)
      else
        (false, "Claude-generated code has Java syntax errors", tokensTotal)

/-! ## migration_patterns/config_properties.py: migrate_config_file -/

/-- Environment of one config-file migration: the path, the read
outcome, and the API outcome (response text, input tokens, output
tokens). -/
structure ConfigEnv where
  path : String
  readRes : Except String String
  apiRes : Except String (String × Nat × Nat)

/-- The inline fence stripping of migrate_config_file, applied once the
stripped response is known to start with a triple backtick: drop the
first line, and drop the last line when its own strip equals the bare
fence. -/
def strip_fences (migrated : String) : String :=
  let lines := (splitNl migrated).drop 1
  let lines :=
    match lines.getLast? with
    | some l => if pyStrip l = "```" then lines.dropLast else lines
    | none => lines
  joinNl lines

/-- migration_patterns/config_properties.migrate_config_file: read the
file, call Claude with the config prompt, strip a leading markdown
fence when present, and return success unconditionally — there is no
well-formedness gate on config text. -/
def migrate_config_file (env : ConfigEnv) : Bool × String × Nat :=
  match env.readRes with
  | .error e => (false, "Could not read " ++ env.path ++ ": " ++ e, 0)
  | .ok _ =>
    match env.apiRes with
    | .error e => (false, "Claude API error: " ++ e, 0)
    | .ok (text, tin, tout) =>
      let migrated := pyStrip text
      let migrated := if pyStartsWith migrated "```" then strip_fences migrated else migrated
      (true, migrated, tin + tout)

/-! ## claude_fixer.py: write_migrated_file, and the orchestrator's
config write path

The file system is modelled as the contents of the target path and of
the sibling backup path; copy and write failures are oracle booleans.
A failed write may leave the target incompletely written, the oracle
`partWritten` supplies that content. -/

structure FsState where
  target : String
  backup : Option String

structure WriteEnv where
  original : String
  newContent : String
  priorBackup : Option String
  copyOk : Bool
  writeOk : Bool
  partWritten : String
  restoreOk : Bool

/-- claude_fixer.write_migrated_file: copy the target to the .bak path
(abort on failure without touching the target), then overwrite the
target; on a write failure restore the backup over the target and, when
even the restore fails, log the CRITICAL escalation.  Result:
(returned flag, final file-system state, escalation logged).  Write
failures are the OSError cases the source catches. -/
def write_migrated_file (env : WriteEnv) : Bool × FsState × Bool :=
  if env.copyOk then
    if env.writeOk then
      (true, { target := env.newContent, backup := some env.original }, false)
    else
      if env.restoreOk then
        (false, { target := env.original, backup := some env.original }, false)
      else
        (false, { target := env.partWritten, backup := some env.original }, true)
  else
    (false, { target := env.original, backup := env.priorBackup }, false)

/-- orchestrator._run_config's write step: a direct
`f.write_text(content)` on the target — no backup copy is made before
the overwrite, so the backup path is left exactly as it was.  Result:
(final file-system state, write succeeded). -/
def config_write_back (st : FsState) (newContent partWritten : String)
    (writeOk : Bool) : FsState × Bool :=
  if writeOk then ({ target := newContent, backup := st.backup }, true)
  else ({ target := partWritten, backup := st.backup }, false)

/-! ## orchestrator.py: PatternOrchestrator -/

structure PatternResult where
  found : Nat
  migrated : Nat
  tokens : Nat
  errors : List String

def zeroPattern : PatternResult :=
  { found := 0, migrated := 0, tokens := 0, errors := [] }

/-- Oracle for one detected file inside a pattern batch: the handler
outcome (success flag, migrated text or error message, token count) and
the write outcome (plus the OSError text for the config pattern's
direct write). -/
structure FileOutcome where
  ok : Bool
  content : String
  tokens : Nat
  writeOk : Bool
  writeErr : String

/-- Where an uncaught exception interrupts a pattern batch: during the
detection scan (before `found` is assigned), or while handling file
`k` — `tokensCounted` tells whether the token counter of file `k` had
already been updated (the write step runs after the token update). -/
inductive ExcPoint
  | duringFind
  | atFile (k : Nat) (tokensCounted : Bool)

/-- Oracle environment of one pattern batch: the detected files with
their per-file outcomes, and an optional uncaught exception with its
message. -/
structure PatternEnv where
  files : List (String × FileOutcome)
  exc : Option (ExcPoint × String)

/-- Loop body of _run_security and _run_hibernate: add the handler's
token count, then either count the file as migrated, or record a write
error, or record the handler's failure message. -/
def stepRewrite (r : PatternResult) (f : String × FileOutcome) : PatternResult :=
  if f.2.ok && f.2.writeOk then
    { r with tokens := r.tokens + f.2.tokens, migrated := r.migrated + 1 }
  else if f.2.ok then
    { r with tokens := r.tokens + f.2.tokens,
             errors := r.errors ++ ["Failed to write: " ++ f.1] }
  else
    { r with tokens := r.tokens + f.2.tokens,
             errors := r.errors ++ ["Migration failed for " ++ f.1 ++ ": " ++ f.2.content] }

/-- Loop body of _run_config: identical control flow, but the write is
a direct write_text whose OSError message lands in the error entry. -/
def stepConfig (r : PatternResult) (f : String × FileOutcome) : PatternResult :=
  if f.2.ok && f.2.writeOk then
    { r with tokens := r.tokens + f.2.tokens, migrated := r.migrated + 1 }
  else if f.2.ok then
    { r with tokens := r.tokens + f.2.tokens,
             errors := r.errors ++ ["Failed to write " ++ f.1 ++ ": " ++ f.2.writeErr] }
  else
    { r with tokens := r.tokens + f.2.tokens,
             errors := r.errors ++ ["Migration failed for " ++ f.1 ++ ": " ++ f.2.content] }

/-- Token-count adjustment at an exception point: when the exception
struck after the token update of file `k`, that file's tokens are
already in the counter. -/
def addTokenOfFile (files : List (String × FileOutcome)) (k : Nat) (tc : Bool)
    (r : PatternResult) : PatternResult :=
  if tc then
    match files.get? k with
    | some f => { r with tokens := r.tokens + f.2.tokens }
    | none => r
  else r

/-- Shared shape of _run_security, _run_config and _run_hibernate: the
whole batch runs inside one try/except.  With no exception the loop
processes every detected file; an exception during detection leaves the
all-zero result plus the labelled error entry; an exception at file `k`
keeps the work of files 0..k-1 (and file k's token update when it had
happened) and appends the labelled error entry. -/
def runPatternWith (step : PatternResult → (String × FileOutcome) → PatternResult)
    (excLabel : String) (env : PatternEnv) : PatternResult :=
  match env.exc with
  | none =>
    env.files.foldl step
      { found := env.files.length, migrated := 0, tokens := 0, errors := [] }
  | some (.duringFind, msg) =>
    { found := 0, migrated := 0, tokens := 0, errors := [excLabel ++ msg] }
  | some (.atFile k tc, msg) =>
    let r := addTokenOfFile env.files k tc
      ((env.files.take k).foldl step
        { found := env.files.length, migrated := 0, tokens := 0, errors := [] })
    { r with errors := r.errors ++ [excLabel ++ msg] }

/-- orchestrator.PatternOrchestrator._run_security. -/
def run_security_pattern (env : PatternEnv) : PatternResult :=
  runPatternWith stepRewrite "Security pattern error: " env

/-- orchestrator.PatternOrchestrator._run_config. -/
def run_config_pattern (env : PatternEnv) : PatternResult :=
  runPatternWith stepConfig "Config pattern error: " env

/-- orchestrator.PatternOrchestrator._run_hibernate. -/
def run_hibernate_pattern (env : PatternEnv) : PatternResult :=
  runPatternWith stepRewrite "Hibernate pattern error: " env

structure Totals where
  found : Nat
  migrated : Nat
  tokens : Nat

structure OrchResult where
  security : PatternResult
  config : PatternResult
  hibernate : PatternResult
  totals : Totals

structure OrchEnv where
  security : PatternEnv
  config : PatternEnv
  hibernate : PatternEnv

def emptyOrchResult : OrchResult :=
  { security := zeroPattern, config := zeroPattern, hibernate := zeroPattern,
    totals := { found := 0, migrated := 0, tokens := 0 } }

/-- orchestrator.PatternOrchestrator.run: in dry-run mode return
all-zero results without touching any pattern; otherwise run the three
patterns in the fixed order and sum their counters into the totals. -/
def orchestrator_run (dryRun : Bool) (env : OrchEnv) : OrchResult :=
  if dryRun then emptyOrchResult
  else
    let s := run_security_pattern env.security
    let c := run_config_pattern env.config
    let h := run_hibernate_pattern env.hibernate
    { security := s, config := c, hibernate := h,
      totals := { found := s.found + c.found + h.found,
                  migrated := s.migrated + c.migrated + h.migrated,
                  tokens := s.tokens + c.tokens + h.tokens } }

/-! ## mvp_migrator.py: _make_result and run_migration_pipeline -/

/-- Result of analyze_project; built from file counts and pom.xml
contents, both external inputs, so carried as an oracle. -/
structure Analysis where
  totalJavaFiles : Nat
  currentSpringBootVersion : String
  projectName : String
  estimatedComplexity : String

structure CompError where
  file : String
  line : Nat
  column : Nat
  message : String

/-- The pipeline results dict (duration_seconds, a wall-clock reading,
is not modelled). -/
structure PipelineResult where
  success : Bool
  analysis : Analysis
  openrewriteSuccess : Bool
  openrewriteChanges : Nat
  claudeConfigsFound : Nat
  claudeConfigsMigrated : Nat
  claudeTotalTokens : Nat
  patternResults : OrchResult
  compilationSuccess : Bool
  compilationErrors : List CompError
  errors : List String

/-- mvp_migrator._make_result. -/
def make_result (analysis : Analysis) (owOk : Bool) (owChanges : Nat)
    (patternResults : OrchResult) (compOk : Bool) (compErrors : List CompError)
    (errors : List String) : PipelineResult :=
  { success := owOk && compOk && errors.isEmpty,
    analysis := analysis,
    openrewriteSuccess := owOk,
    openrewriteChanges := owChanges,
    claudeConfigsFound := patternResults.totals.found,
    claudeConfigsMigrated := patternResults.totals.migrated,
    claudeTotalTokens := patternResults.totals.tokens,
    patternResults := patternResults,
    compilationSuccess := compOk,
    compilationErrors := compErrors,
    errors := errors }

/-- Environment of one pipeline run: the analysis oracle, the
OpenRewrite environment, the orchestrator oracles, the compilation
stage oracle (validate_compilation's flag and the errors
parse_compilation_errors extracts from its output), and the dry-run
flag. -/
structure PipelineEnv where
  analysis : Analysis
  ow : OwEnv
  orch : OrchEnv
  compOk : Bool
  compErrors : List CompError
  dryRun : Bool

/-- Execution-trace facts of one pipeline run: whether the Maven
subprocess of the OpenRewrite stage was invoked and whether the pattern
stage (stage 3) was reached. -/
structure PipelineTrace where
  subprocessInvoked : Bool
  patternStageRan : Bool

/-- Stage-3 error collection of run_migration_pipeline: every
per-pattern error entry, tagged with its pattern name, in the fixed
pattern order. -/
def pattern_errors_tagged (pr : OrchResult) : List String :=
  (pr.security.errors.map (fun e => "[security] " ++ e)) ++
  (pr.config.errors.map (fun e => "[config] " ++ e)) ++
  (pr.hibernate.errors.map (fun e => "[hibernate] " ++ e))

/-- Stage-4 compilation flag: skipped (treated as success) in dry-run. -/
def pipeline_comp_ok (env : PipelineEnv) : Bool :=
  if env.dryRun then true else env.compOk

/-- Stage-4 parsed error list: empty in dry-run and on success. -/
def pipeline_comp_errors (env : PipelineEnv) : List CompError :=
  if env.dryRun then [] else if env.compOk then [] else env.compErrors

/-- The accumulated pipeline error list after stages 3 and 4. -/
def pipeline_errors (env : PipelineEnv) (pr : OrchResult) : List String :=
  if pipeline_comp_ok env then pattern_errors_tagged pr
  else pattern_errors_tagged pr ++
    ["Compilation failed with " ++ toString (pipeline_comp_errors env).length ++ " error(s)"]

/-- mvp_migrator.run_migration_pipeline: analyze, run OpenRewrite and
abort on its failure with all-zero pattern results and the single
pipeline error, otherwise run the pattern stage, collect its errors,
validate compilation (skipped in dry-run) and build the result. -/
def run_migration_pipeline (env : PipelineEnv) : PipelineResult × PipelineTrace :=
  if (run_openrewrite env.ow).1.ok then
    (make_result env.analysis true (run_openrewrite env.ow).1.changes
      (orchestrator_run env.dryRun env.orch)
      (pipeline_comp_ok env) (pipeline_comp_errors env)
      (pipeline_errors env (orchestrator_run env.dryRun env.orch)),
     { subprocessInvoked := (run_openrewrite env.ow).2, patternStageRan := true })
  else
    (make_result env.analysis false 0 emptyOrchResult false []
      ["OpenRewrite execution failed"],
     { subprocessInvoked := (run_openrewrite env.ow).2, patternStageRan := false })

/-! ## test_pattern_migrations.py: validate_config_migration -/

/-- The (old key, new key, message) table of deprecated-key renames. -/
def deprecatedChecks : List (String × String × String) :=
  [("spring.redis.", "spring.data.redis.", "spring.redis not renamed"),
   ("spring.elasticsearch.rest.", "spring.elasticsearch.", "elasticsearch.rest not renamed"),
   ("server.max-http-header-size", "server.max-http-request-header-size",
    "max-http-header-size not renamed")]

/-- Key fragments that must disappear entirely. -/
def removeChecks : List String :=
  ["use-new-id-generator-mappings", "use-legacy-processing"]

/-- The deprecated-dialect rename table (insertion order of the source
dict). -/
def deprecatedDialects : List (String × String) :=
  [("MySQL5InnoDBDialect", "MySQLDialect"),
   ("MySQL5Dialect", "MySQLDialect"),
   ("PostgreSQL95Dialect", "PostgreSQLDialect"),
   ("PostgreSQL9Dialect", "PostgreSQLDialect")]

/-- test_pattern_migrations.validate_config_migration.  In the YAML
branch the source computes leaf-key names but then applies the very
same containment test as the properties branch, so both branches read
identically here.  The source wraps some message fragments in single
quotation marks, which are omitted from the message strings. -/
def validate_config_migration (original migrated : String) (isYaml : Bool) :
    Bool × List String :=
  let depIssues := deprecatedChecks.foldr (fun c acc =>
    if strIn c.1 original then
      (if isYaml then
        (if strIn c.1 migrated && !(strIn c.2.1 migrated) then c.2.2 :: acc else acc)
      else
        (if strIn c.1 migrated && !(strIn c.2.1 migrated) then c.2.2 :: acc else acc))
    else acc) []
  let remIssues := removeChecks.foldr (fun k acc =>
    if strIn k original && strIn k migrated then (k ++ " should be removed") :: acc
    else acc) []
  let diaIssues := deprecatedDialects.foldr (fun d acc =>
    if strIn d.1 original && strIn d.1 migrated then
      ("Dialect " ++ d.1 ++ " not updated to " ++ d.2) :: acc
    else acc) []
  let appIssues :=
    if (strIn "app." original || strIn "app:" original) && !(strIn "app" migrated) then
      ["Custom app properties lost"]
    else []
  let issues := depIssues ++ remIssues ++ diaIssues ++ appIssues
  (issues.isEmpty, issues)

/-! ## Concrete scenario inputs -/

/-- Recipe-runner output with two applied-format lines for path A and
one for path B, and no other matching or fallback phrases. -/
def c7Output : String :=
  "Changes have been made to A by:\nChanges have been made to A by:\nChanges have been made to B by:"

/-- A properties file containing the deprecated Redis host key. -/
def c8Original : String := "spring.redis.host=localhost"

/-- A migrated text in which the old key prefix survives next to the
new key prefix. -/
def c8Migrated : String := "spring.data.redis.host=localhost\nspring.redis.timeout=1"

/-- A pipeline environment whose OpenRewrite and compilation stages
succeed while the single detected security config fails to migrate. -/
def envC1 : PipelineEnv :=
  { analysis := { totalJavaFiles := 1, currentSpringBootVersion := "2.7.5",
                  projectName := "demo", estimatedComplexity := "low" },
    ow := { projectPath := "/proj", pomExists := true,
            subproc := Except.ok { returncode := 0, stdout := "", stderr := "" } },
    orch := { security := { files := [("A.java",
                { ok := false, content := "Claude API error: boom", tokens := 0,
                  writeOk := false, writeErr := "" })], exc := none },
              config := { files := [], exc := none },
              hibernate := { files := [], exc := none } },
    compOk := true, compErrors := [], dryRun := false }

/-- A security-handler environment with a readable file, a fenced Java
response and a parser reporting no errors. -/
def envC3S : RewriteEnv :=
  { path := "SecurityConfig.java",
    readRes := Except.ok "class A extends WebSecurityConfigurerAdapter {}",
    apiRes := Except.ok { text := "```java\nclass A {}\n```", tokensIn := 5, tokensOut := 6 },
    parseHasError := fun _ => false }

/-- A hibernate-handler environment with a readable file, a fenced Java
response and a parser reporting no errors. -/
def envC3H : RewriteEnv :=
  { path := "Entity.java",
    readRes := Except.ok "class E {}",
    apiRes := Except.ok { text := "```java\nclass E {}\n```", tokensIn := 2, tokensOut := 3 },
    parseHasError := fun _ => false }

/-- A write-back environment whose backup copy fails. -/
def envC4 : WriteEnv :=
  { original := "orig", newContent := "new", priorBackup := none,
    copyOk := false, writeOk := true, partWritten := "", restoreOk := true }

/-- A pipeline environment for a project without a pom.xml. -/
def envC6 : PipelineEnv :=
  { analysis := { totalJavaFiles := 1, currentSpringBootVersion := "unknown",
                  projectName := "unknown", estimatedComplexity := "low" },
    ow := { projectPath := "/proj", pomExists := false,
            subproc := Except.ok { returncode := 0, stdout := "", stderr := "" } },
    orch := { security := { files := [], exc := none },
              config := { files := [], exc := none },
              hibernate := { files := [], exc := none } },
    compOk := true, compErrors := [], dryRun := false }

/-- A config-migration environment whose read and API call both succeed
with a fenced response. -/
def envC10 : ConfigEnv :=
  { path := "application.properties",
    readRes := Except.ok "spring.redis.host=localhost",
    apiRes := Except.ok ("```properties\nfoo\n```", 3, 4) }

/-- Conclusion of the missing-build-descriptor scenario: the recipe
stage fails with the no-pom message without invoking the subprocess,
the pattern stage is not reached, every per-pattern and total count is
zero, overall success is false, and the pipeline error list holds
exactly the one OpenRewrite entry. -/
def noPomConclusion (env : PipelineEnv) : Prop :=
  (run_openrewrite env.ow).1.ok = false ∧
  (run_openrewrite env.ow).1.output = "No pom.xml found at " ++ env.ow.projectPath ∧
  (run_openrewrite env.ow).2 = false ∧
  (run_migration_pipeline env).2.patternStageRan = false ∧
  (run_migration_pipeline env).1.patternResults = emptyOrchResult ∧
  (run_migration_pipeline env).1.claudeConfigsFound = 0 ∧
  (run_migration_pipeline env).1.claudeConfigsMigrated = 0 ∧
  (run_migration_pipeline env).1.claudeTotalTokens = 0 ∧
  (run_migration_pipeline env).1.success = false ∧
  (run_migration_pipeline env).1.errors = ["OpenRewrite execution failed"]

/-! ## Helper lemmas on substring containment -/

lemma segAt_iff (p : List Char) : ∀ s : List Char, segAt p s = true ↔ ∃ t, s = p ++ t := by
  induction p with
  | nil => intro s; simp [segAt]
  | cons a as ih =>
    intro s
    cases s with
    | nil => simp [segAt]
    | cons b bs =>
      simp only [segAt, Bool.and_eq_true, beq_iff_eq, ih, List.cons_append]
      constructor
      · rintro ⟨rfl, t, rfl⟩
        exact ⟨t, rfl⟩
      · rintro ⟨t, h⟩
        obtain ⟨h1, h2⟩ := List.cons.inj h
        exact ⟨h1.symm, t, h2⟩

lemma hasSeg_iff (p : List Char) : ∀ s : List Char,
    hasSeg p s = true ↔ ∃ u t, s = u ++ (p ++ t) := by
  intro s
  induction s with
  | nil =>
    simp only [hasSeg, segAt_iff]
    constructor
    · rintro ⟨t, h⟩
      exact ⟨[], t, by simpa using h⟩
    · rintro ⟨u, t, h⟩
      rcases u with _ | ⟨x, xs⟩
      · exact ⟨t, by simpa using h⟩
      · simp at h
  | cons b bs ih =>
    simp only [hasSeg, Bool.or_eq_true, segAt_iff, ih]
    constructor
    · rintro (⟨t, h⟩ | ⟨u, t, h⟩)
      · exact ⟨[], t, by simpa using h⟩
      · exact ⟨b :: u, t, by simp [h]⟩
    · rintro ⟨u, t, h⟩
      rcases u with _ | ⟨x, xs⟩
      · exact Or.inl ⟨t, by simpa using h⟩
      · obtain ⟨h1, h2⟩ := List.cons.inj h
        exact Or.inr ⟨xs, t, h2⟩

lemma hasSeg_trans {a b c : List Char} (h1 : hasSeg a b = true)
    (h2 : hasSeg b c = true) : hasSeg a c = true := by
  rw [hasSeg_iff] at h1 h2 ⊢
  obtain ⟨u, t, rfl⟩ := h1
  obtain ⟨v, w, rfl⟩ := h2
  exact ⟨v ++ u, t ++ w, by simp [List.append_assoc]⟩

lemma strIn_trans {a b c : String} (h1 : strIn a b = true)
    (h2 : strIn b c = true) : strIn a c = true :=
  hasSeg_trans h1 h2

/-! ## Helper lemmas on the pattern loop -/

lemma stepRewrite_found (r : PatternResult) (f : String × FileOutcome) :
    (stepRewrite r f).found = r.found := by
  unfold stepRewrite
  split
  · rfl
  · split <;> rfl

lemma stepRewrite_migrated_le (r : PatternResult) (f : String × FileOutcome) :
    (stepRewrite r f).migrated ≤ r.migrated + 1 := by
  unfold stepRewrite
  split
  · exact Nat.le_refl _
  · split <;> exact Nat.le_succ _

lemma stepConfig_found (r : PatternResult) (f : String × FileOutcome) :
    (stepConfig r f).found = r.found := by
  unfold stepConfig
  split
  · rfl
  · split <;> rfl

lemma stepConfig_migrated_le (r : PatternResult) (f : String × FileOutcome) :
    (stepConfig r f).migrated ≤ r.migrated + 1 := by
  unfold stepConfig
  split
  · exact Nat.le_refl _
  · split <;> exact Nat.le_succ _

lemma foldl_step_bound (step : PatternResult → (String × FileOutcome) → PatternResult)
    (hf : ∀ r f, (step r f).found = r.found)
    (hm : ∀ r f, (step r f).migrated ≤ r.migrated + 1) :
    ∀ (l : List (String × FileOutcome)) (r : PatternResult),
      (l.foldl step r).found = r.found ∧
      (l.foldl step r).migrated ≤ r.migrated + l.length := by
  intro l
  induction l with
  | nil => intro r; exact ⟨rfl, by simp⟩
  | cons f t ih =>
    intro r
    obtain ⟨ihf, ihm⟩ := ih (step r f)
    refine ⟨by rw [List.foldl_cons, ihf, hf], ?_⟩
    calc (List.foldl step (step r f) t).migrated
        ≤ (step r f).migrated + t.length := ihm
      _ ≤ (r.migrated + 1) + t.length := Nat.add_le_add_right (hm r f) _
      _ = r.migrated + (f :: t).length := by simp [List.length_cons]; omega

lemma addTokenOfFile_migrated (files : List (String × FileOutcome)) (k : Nat)
    (tc : Bool) (r : PatternResult) :
    (addTokenOfFile files k tc r).migrated = r.migrated := by
  unfold addTokenOfFile
  split
  · split <;> rfl
  · rfl

lemma addTokenOfFile_found (files : List (String × FileOutcome)) (k : Nat)
    (tc : Bool) (r : PatternResult) :
    (addTokenOfFile files k tc r).found = r.found := by
  unfold addTokenOfFile
  split
  · split <;> rfl
  · rfl

lemma runPatternWith_migrated_le_found
    (step : PatternResult → (String × FileOutcome) → PatternResult)
    (hf : ∀ r f, (step r f).found = r.found)
    (hm : ∀ r f, (step r f).migrated ≤ r.migrated + 1)
    (excLabel : String) (env : PatternEnv) :
    (runPatternWith step excLabel env).migrated ≤
      (runPatternWith step excLabel env).found := by
  unfold runPatternWith
  rcases henv : env.exc with _ | ⟨pt, msg⟩
  · obtain ⟨h1, h2⟩ := foldl_step_bound step hf hm env.files
      { found := env.files.length, migrated := 0, tokens := 0, errors := [] }
    simpa [h1] using h2
  · cases pt with
    | duringFind => simp
    | atFile k tc =>
      obtain ⟨h1, h2⟩ := foldl_step_bound step hf hm (env.files.take k)
        { found := env.files.length, migrated := 0, tokens := 0, errors := [] }
      have hlen : (env.files.take k).length ≤ env.files.length := by
        rw [List.length_take]; omega
      have hb : (List.foldl step
            { found := env.files.length, migrated := 0, tokens := 0, errors := [] }
            (env.files.take k)).migrated ≤
          (List.foldl step
            { found := env.files.length, migrated := 0, tokens := 0, errors := [] }
            (env.files.take k)).found := by
        rw [h1]
        exact le_trans h2 (by simp [List.length_take])
      simpa [addTokenOfFile_migrated, addTokenOfFile_found] using hb

/-! ## Helper lemmas on the pipeline error list -/

lemma pattern_errors_tagged_ne_nil {pr : OrchResult} {e : String}
    (h : e ∈ pr.security.errors ∨ e ∈ pr.config.errors ∨ e ∈ pr.hibernate.errors) :
    pattern_errors_tagged pr ≠ [] := by
  unfold pattern_errors_tagged
  rcases h with h | h | h
  · exact List.ne_nil_of_mem
      (List.mem_append_left _ (List.mem_append_left _ (List.mem_map_of_mem _ h)))
  · exact List.ne_nil_of_mem
      (List.mem_append_left _ (List.mem_append_right _ (List.mem_map_of_mem _ h)))
  · exact List.ne_nil_of_mem (List.mem_append_right _ (List.mem_map_of_mem _ h))

lemma pipeline_errors_ne_nil (env : PipelineEnv) (pr : OrchResult)
    (h : pattern_errors_tagged pr ≠ []) : pipeline_errors env pr ≠ [] := by
  unfold pipeline_errors
  split
  · exact h
  · intro hc
    exact h (List.append_eq_nil.mp hc).1

/-! ## Claim theorems -/

/-- Claim C1: for every run of the migration pipeline, the overall
success flag of the result equals the conjunction of the external
recipe flag, the compilation flag, and emptiness of the accumulated
pipeline error list; and whenever any pattern handler contributed an
error entry, overall success is false. -/
theorem pipeline_success_iff_stages_and_no_errors (env : PipelineEnv) :
    ((run_migration_pipeline env).1.success =
      ((run_migration_pipeline env).1.openrewriteSuccess &&
       (run_migration_pipeline env).1.compilationSuccess &&
       (run_migration_pipeline env).1.errors.isEmpty)) ∧
    (∀ e : String,
      (e ∈ (run_migration_pipeline env).1.patternResults.security.errors ∨
       e ∈ (run_migration_pipeline env).1.patternResults.config.errors ∨
       e ∈ (run_migration_pipeline env).1.patternResults.hibernate.errors) →
      (run_migration_pipeline env).1.success = false) := by
  unfold run_migration_pipeline
  split
  · refine ⟨rfl, ?_⟩
    intro e he
    have hne : pipeline_errors env (orchestrator_run env.dryRun env.orch) ≠ [] :=
      pipeline_errors_ne_nil env _
        (pattern_errors_tagged_ne_nil (by simpa [make_result] using he))
    have hie : (pipeline_errors env (orchestrator_run env.dryRun env.orch)).isEmpty = false := by
      rw [List.isEmpty_eq_false]; exact hne
    simp [make_result, hie]
  · refine ⟨rfl, ?_⟩
    intro e he
    simp [make_result, emptyOrchResult, zeroPattern] at he

/-- Claim C1 witness: a concrete run whose two external stages succeed
while the security handler contributes one error has overall success
false. -/
theorem pipeline_success_iff_stages_and_no_errors_witness :
    (run_migration_pipeline envC1).1.success = false :=
  (pipeline_success_iff_stages_and_no_errors envC1).2
    "Migration failed for A.java: Claude API error: boom" (Or.inl (by decide))

/-- Claim C2: for every orchestrator run (dry-run or not, any file and
exception oracles), the totals entry's found, migrated and tokens
values each equal the exact sum of the corresponding values of the
security, config and hibernate entries. -/
theorem orchestrator_totals_eq_sum (dryRun : Bool) (env : OrchEnv) :
    ((orchestrator_run dryRun env).totals.found =
      (orchestrator_run dryRun env).security.found +
      (orchestrator_run dryRun env).config.found +
      (orchestrator_run dryRun env).hibernate.found) ∧
    ((orchestrator_run dryRun env).totals.migrated =
      (orchestrator_run dryRun env).security.migrated +
      (orchestrator_run dryRun env).config.migrated +
      (orchestrator_run dryRun env).hibernate.migrated) ∧
    ((orchestrator_run dryRun env).totals.tokens =
      (orchestrator_run dryRun env).security.tokens +
      (orchestrator_run dryRun env).config.tokens +
      (orchestrator_run dryRun env).hibernate.tokens) := by
  cases dryRun <;> simp [orchestrator_run, emptyOrchResult, zeroPattern]

/-- Claim C3: for every security or hibernate rewrite-handler
invocation, a returned success flag of true implies that the returned
migrated text passes the Java well-formedness check against the same
parser oracle the handler consulted. -/
theorem rewrite_success_implies_java_wf (envS envH : RewriteEnv) :
    ((migrate_security_config envS).1 = true →
      validateJavaCode envS.parseHasError (migrate_security_config envS).2.1 = true) ∧
    ((migrate_hibernate_file envH).1 = true →
      validateJavaCode envH.parseHasError (migrate_hibernate_file envH).2.1 = true) := by
  constructor
  · unfold migrate_security_config
    cases hr : envS.readRes with
    | error e => simp
    | ok src =>
      cases ha : envS.apiRes with
      | error e => simp
      | ok resp =>
        cases hv : validateJavaCode envS.parseHasError (extract_code_from_response resp.text) <;>
          simp [hv]
  · unfold migrate_hibernate_file
    cases hr : envH.readRes with
    | error e => simp
    | ok src =>
      cases ha : envH.apiRes with
      | error e => simp
      | ok resp =>
        cases hv : validateJavaCode envH.parseHasError (extract_code_from_response resp.text) <;>
          simp [hv]

/-- Claim C3 witness: concrete successful security and hibernate
migrations whose returned texts pass the well-formedness check. -/
theorem rewrite_success_implies_java_wf_witness :
    validateJavaCode envC3S.parseHasError (migrate_security_config envC3S).2.1 = true ∧
    validateJavaCode envC3H.parseHasError (migrate_hibernate_file envC3H).2.1 = true :=
  ⟨(rewrite_success_implies_java_wf envC3S envC3H).1 (by decide),
   (rewrite_success_implies_java_wf envC3S envC3H).2 (by decide)⟩

/-- Claim C4: every write_migrated_file run ends with the target still
holding the original (and failure returned), or the backup holding the
original and the target holding the migrated content (and success
returned), or — only when the restoration itself failed — the escalated
flag raised (with failure returned and the backup still holding the
original); and a backup-copy failure returns failure without touching
the target and without escalation. -/
theorem write_migrated_file_recoverability (env : WriteEnv) :
    (((write_migrated_file env).2.1.target = env.original ∧
      (write_migrated_file env).1 = false) ∨
     ((write_migrated_file env).2.1.backup = some env.original ∧
      (write_migrated_file env).2.1.target = env.newContent ∧
      (write_migrated_file env).1 = true) ∨
     ((write_migrated_file env).2.2 = true ∧
      (write_migrated_file env).1 = false ∧
      (write_migrated_file env).2.1.backup = some env.original)) ∧
    (env.copyOk = false →
      (write_migrated_file env).1 = false ∧
      (write_migrated_file env).2.1.target = env.original ∧
      (write_migrated_file env).2.2 = false) := by
  unfold write_migrated_file
  cases hc : env.copyOk <;> cases hw : env.writeOk <;> cases hr : env.restoreOk <;>
    simp [hc, hw, hr]

/-- Claim C4 witness: a failed backup copy returns failure with the
target untouched and no escalation. -/
theorem write_migrated_file_recoverability_witness :
    (write_migrated_file envC4).1 = false ∧
    (write_migrated_file envC4).2.1.target = "orig" ∧
    (write_migrated_file envC4).2.2 = false :=
  (write_migrated_file_recoverability envC4).2 rfl

/-- Claim C5 (code bug): the orchestrator's config write path
overwrites the target with the migrated content while the backup path
keeps its prior state — no backup of the original is created before the
overwrite, evaluated at a config file holding the deprecated Redis key. -/
theorem config_write_back_no_backup :
    config_write_back { target := "spring.redis.host=localhost", backup := none }
      "spring.data.redis.host=localhost" "" true =
    ({ target := "spring.data.redis.host=localhost", backup := none }, true) := rfl

/-- Claim C6: when the project root has no pom.xml, the pipeline aborts
as described by noPomConclusion (immediate recipe failure without a
subprocess, pattern stage not reached, all counts zero, success false,
exactly one pipeline error). -/
theorem no_pom_aborts_pipeline (env : PipelineEnv)
    (h : env.ow.pomExists = false) : noPomConclusion env := by
  have how : run_openrewrite env.ow =
      ({ ok := false, output := "No pom.xml found at " ++ env.ow.projectPath,
         changes := 0 }, false) := by
    simp [run_openrewrite, h]
  unfold noPomConclusion run_migration_pipeline
  simp [how, make_result, emptyOrchResult]

/-- Claim C6 witness: the no-pom conclusion at a concrete environment
without a build descriptor. -/
theorem no_pom_aborts_pipeline_witness : noPomConclusion envC6 :=
  no_pom_aborts_pipeline envC6 rfl

/-- Claim C7 counterexample: on the output with two applied-format
lines for A and one for B, _parse_change_count does not return 2. -/
theorem parse_change_count_c7_not_two : parse_change_count c7Output ≠ 2 := by decide

/-- Claim C7 (amended): on the output with two applied-format lines for
A and one for B, _parse_change_count returns 3 — one entry per matching
line occurrence, matched literally and not deduplicated by path. -/
theorem parse_change_count_c7_counts_each_line : parse_change_count c7Output = 3 := by
  decide

/-- Claim C8 counterexample: with the original containing
spring.redis.host=localhost and a migrated text that still contains the
old prefix spring.redis. but also contains spring.data.redis., the
properties-mode validator returns a passing verdict with no issues. -/
theorem validate_config_c8_old_key_passes :
    strIn "spring.redis.host=localhost" c8Original = true ∧
    strIn "spring.redis." c8Migrated = true ∧
    (validate_config_migration c8Original c8Migrated false).1 = true ∧
    (validate_config_migration c8Original c8Migrated false).2 = [] := by decide

/-- Claim C8 (amended): with the original containing
spring.redis.host=localhost, the properties-mode validator returns a
failing verdict whenever the migrated text still contains the old key
prefix spring.redis. AND does not contain the replacement prefix
spring.data.redis. -/
theorem validate_config_flags_surviving_old_key (original migrated : String)
    (h1 : strIn "spring.redis.host=localhost" original = true)
    (h2 : strIn "spring.redis." migrated = true)
    (h3 : strIn "spring.data.redis." migrated = false) :
    (validate_config_migration original migrated false).1 = false := by
  have h0 : strIn "spring.redis." original = true :=
    strIn_trans (by decide) h1
  unfold validate_config_migration
  simp [deprecatedChecks, h0, h2, h3]

/-- Claim C8 amended-claim witness: a migrated text that kept the old
key and lacks the new key fails validation. -/
theorem validate_config_flags_surviving_old_key_witness :
    (validate_config_migration "spring.redis.host=localhost"
      "spring.redis.host=localhost" false).1 = false :=
  validate_config_flags_surviving_old_key _ _ (by decide) (by decide) (by decide)

/-- Claim C9: for every per-pattern result of the orchestrator
(security, config and hibernate alike), the migrated count never
exceeds the found count — each detected target adds at most one to the
migrated counter — including runs degraded by a mid-batch exception
(the lower bound zero is inherent to the natural-number counters). -/
theorem pattern_migrated_le_found (envS envC envH : PatternEnv) :
    ((run_security_pattern envS).migrated ≤ (run_security_pattern envS).found) ∧
    ((run_config_pattern envC).migrated ≤ (run_config_pattern envC).found) ∧
    ((run_hibernate_pattern envH).migrated ≤ (run_hibernate_pattern envH).found) :=
  ⟨runPatternWith_migrated_le_found _ stepRewrite_found stepRewrite_migrated_le _ envS,
   runPatternWith_migrated_le_found _ stepConfig_found stepConfig_migrated_le _ envC,
   runPatternWith_migrated_le_found _ stepRewrite_found stepRewrite_migrated_le _ envH⟩

/-- Claim C10: migrate_config_file succeeds exactly when the read and
the API call both succeed; in that case it returns, for every possible
response text, success together with the stripped response — with the
fence lines removed precisely when the stripped response starts with a
triple backtick — and the summed token count.  No well-formedness gate
is applied. -/
theorem migrate_config_no_wf_gate (env : ConfigEnv) :
    ((migrate_config_file env).1 = true ↔
      (∃ c, env.readRes = Except.ok c) ∧ (∃ r, env.apiRes = Except.ok r)) ∧
    (∀ (c text : String) (tin tout : Nat),
      env.readRes = Except.ok c → env.apiRes = Except.ok (text, tin, tout) →
      migrate_config_file env =
        (true,
         if pyStartsWith (pyStrip text) "```" then strip_fences (pyStrip text)
         else pyStrip text,
         tin + tout)) := by
  constructor
  · cases hr : env.readRes with
    | error e => simp [migrate_config_file, hr]
    | ok c =>
      cases ha : env.apiRes with
      | error e => simp [migrate_config_file, hr, ha]
      | ok r =>
        obtain ⟨text, tin, tout⟩ := r
        simp [migrate_config_file, hr, ha]
  · intro c text tin tout hr ha
    simp [migrate_config_file, hr, ha]

/-- Claim C10 witness: a concrete successful read and API response with
a fenced body yields success, the stripped body, and the token sum. -/
theorem migrate_config_no_wf_gate_witness :
    migrate_config_file envC10 = (true, "foo", 7) := by
  have h := (migrate_config_no_wf_gate envC10).2 "spring.redis.host=localhost"
    "```properties\nfoo\n```" 3 4 rfl rfl
  rw [h]
  decide

end Mig
